import Mathlib

/-!
Shallow embedding of the retrieve → (optional rerank) → generate pipeline
implemented in `Lab 2/2.4 Bedrock Inference with Reranking.ipynb`
(`search_kb_with_optional_rerank` and `retrieve_and_generate`).

The remote service responses — the knowledge-base retrieval hits and the
rerank-service results — are modelled as explicit inputs to the pure
functions.  Numeric scores (`scoreValue`, `relevanceScore`) are opaque
pass-through values in the code and are modelled as integers.  Python
dictionary-key presence (`"reranked_results" in results`, a hit having
`content`/`text` keys, an entry having an `index` key) is modelled with
`Option`.  A Python `IndexError` (the `documents[idx]` lookup while mapping
rerank entries) makes the embedding return `none`.
-/

/-- A fragment of a retrieval hit's content text.  In the source each item of
`result["content"]["text"]` is either a mapping, read via
`item.get("span", "")` (so a missing `span` key contributes the empty
string), or any other value, coerced with `str(item)`. -/
inductive Fragment where
  | mapping (span : Option String)
  | plain (s : String)
deriving Repr, DecidableEq

/-- The string a single fragment contributes:
`item.get("span", "") if isinstance(item, dict) else str(item)`. -/
def fragmentText : Fragment → String
  | .mapping span => span.getD ""
  | .plain s => s

/-- One hit of the knowledge-base `retrieve` response.  `content = some items`
models `"content" in result and "text" in result["content"]` holding with
fragment list `items`; `scoreValue` models `result.get("scoreValue", 0)`. -/
structure RetrievalHit where
  content : Option (List Fragment)
  scoreValue : Option Int
deriving Repr, DecidableEq

/-- An entry of `original_results`: `{"position": i + 1, "score": ..., "text": ...}`. -/
structure RetrievedDocument where
  position : Nat
  score : Int
  text : String
deriving Repr, DecidableEq

/-- One entry of the rerank-service response: `result.get("index", 0)` and
`result.get("relevanceScore", 0)`. -/
structure RerankEntry where
  index : Option Nat
  relevanceScore : Option Int
deriving Repr, DecidableEq

/-- An entry of `reranked_results`. -/
structure RerankedDocument where
  original_position : Nat
  new_position : Nat
  relevance_score : Int
  text : String
deriving Repr, DecidableEq

/-- The dictionary returned by `search_kb_with_optional_rerank`:
`reranked_results = none` models the absence of the `"reranked_results"` key. -/
structure SearchResult where
  original_results : List RetrievedDocument
  reranked_results : Option (List RerankedDocument)
deriving Repr, DecidableEq

/-- The observable intermediate state of `retrieve_and_generate` just before
the model invocation: the selected document texts, the `source_type` label,
the context block and the assembled prompt. -/
structure GenOutput where
  docs : List String
  source_type : String
  context : String
  prompt : String
deriving Repr, DecidableEq

/-- Python's slicing `text[:n]`: the first `n` characters.  Agrees with
`String.take` (see `strTake_eq_take`) but reduces structurally on the
character list. -/
def strTake (s : String) (n : Nat) : String := ⟨s.data.take n⟩

/-- Python's `" ".join(pieces)`: concatenation with a single space between
consecutive pieces. -/
def joinWithSpace : List String → String
  | [] => ""
  | [s] => s
  | s :: rest => s ++ " " ++ joinWithSpace rest

/-- Text extraction for one retrieval hit: `" ".join([... for item in
result["content"]["text"]])` when the content keys are present, the initial
`text = ""` otherwise. -/
def extractText (hit : RetrievalHit) : String :=
  match hit.content with
  | some items => joinWithSpace (items.map fragmentText)
  | none => ""

/-- The retrieval-path truncation:
`text[:300] + "..." if len(text) > 300 else text`. -/
def truncateWithEllipsis (text : String) : String :=
  if text.length > 300 then strTake text 300 ++ "..." else text

/-- The `for i, result in enumerate(...)` loop body building
`original_results`, with `i` threaded as the accumulator. -/
def originalResultsGo : List RetrievalHit → Nat → List RetrievedDocument
  | [], _ => []
  | hit :: rest, i =>
    { position := i + 1,
      score := hit.scoreValue.getD 0,
      text := truncateWithEllipsis (extractText hit) } :: originalResultsGo rest (i + 1)

/-- The `original_results` list built from the retrieval hits. -/
def originalResults (hits : List RetrievalHit) : List RetrievedDocument :=
  originalResultsGo hits 0

/-- The loop building `reranked_results`: `k` is the current length of the
accumulated list (so `new_position = len(reranked_results) + 1 = k + 1`).
`documents.get? idx` models the Python lookup `documents[idx]`; an
out-of-range index raises `IndexError`, i.e. returns `none` overall. -/
def processRerankGo (documents : List String) :
    List RerankEntry → Nat → Option (List RerankedDocument)
  | [], _ => some []
  | entry :: rest, k =>
    let idx := entry.index.getD 0
    match documents.get? idx with
    | none => none
    | some doc =>
      match processRerankGo documents rest (k + 1) with
      | none => none
      | some tail =>
        some ({ original_position := idx + 1,
                new_position := k + 1,
                relevance_score := entry.relevanceScore.getD 0,
                text := strTake doc 300 ++ "..." } :: tail)

/-- Processing of the rerank-service response (`reranked.get("results", [])`)
against the submitted document list. -/
def processRerankResults (entries : List RerankEntry) (documents : List String) :
    Option (List RerankedDocument) :=
  processRerankGo documents entries 0

/-- Python truthiness of the `model_arn` argument: `None` and the empty
string are falsy. -/
def optStrTruthy : Option String → Bool
  | none => false
  | some s => !(s == "")

/-- `search_kb_with_optional_rerank(query, kb_id, model_arn, use_reranking)`.
The retrieval call (requesting `numberOfResults: 5`) is external; `hits` is
the `retrievalResults` list it returned.  The rerank call is external;
`rerankResponse` is the `results` list it returned (consulted only when the
rerank branch is taken).  Returns `none` exactly when the Python code would
raise an `IndexError` while mapping the rerank response. -/
def search_kb_with_optional_rerank (useReranking : Bool) (modelArn : Option String)
    (hits : List RetrievalHit) (rerankResponse : List RerankEntry) :
    Option SearchResult :=
  let documents := hits.map extractText
  let original_results := originalResults hits
  if useReranking && optStrTruthy modelArn && !documents.isEmpty then
    match processRerankResults rerankResponse documents with
    | none => none
    | some reranked_results =>
      some { original_results := original_results,
             reranked_results := some reranked_results }
  else
    some { original_results := original_results, reranked_results := none }

/-- One context line: `f"Document {i+1}: {doc[:300]}..."`. -/
def formatContextDoc (i : Nat) (doc : String) : String :=
  "Document " ++ toString (i + 1) ++ ": " ++ strTake doc 300 ++ "..."

/-- The context block:
`"\n\n".join([f"Document {i+1}: {doc[:300]}..." for i, doc in enumerate(docs[:3])])`. -/
def buildContext (docs : List String) : String :=
  String.intercalate "\n\n" ((docs.take 3).enum.map fun p => formatContextDoc p.1 p.2)

/-- `retrieve_and_generate(query, kb_id, rerank_model_arn, use_reranking)` up
to the point where the assembled prompt is handed to the model invocation
(which is external).  Selection mirrors
`if use_reranking and "reranked_results" in results`. -/
def retrieve_and_generate (query : String) (useReranking : Bool)
    (modelArn : Option String) (hits : List RetrievalHit)
    (rerankResponse : List RerankEntry) : Option GenOutput :=
  match search_kb_with_optional_rerank useReranking modelArn hits rerankResponse with
  | none => none
  | some results =>
    let sel : List String × String :=
      if useReranking && results.reranked_results.isSome then
        ((results.reranked_results.getD []).map (fun d => d.text), "reranked")
      else
        (results.original_results.map (fun d => d.text), "vector search")
    let context := buildContext sel.1
    some { docs := sel.1,
           source_type := sel.2,
           context := context,
           prompt := "Query: " ++ query ++ "\n\nContext from " ++ sel.2 ++ ":\n"
                     ++ context ++ "\n\nAnswer:" }

/-! ### Helper lemmas -/

/-- `strTake` agrees with `String.take`. -/
theorem strTake_eq_take (s : String) (n : Nat) : strTake s n = s.take n :=
  (String.take_eq s n).symm

/-- Characterisation of a successful run of the rerank-processing loop:
lengths agree and the `j`-th produced document is determined by the `j`-th
response entry. -/
theorem processRerankGo_spec (documents : List String) (entries : List RerankEntry) :
    ∀ (k : Nat) (rr : List RerankedDocument),
      processRerankGo documents entries k = some rr →
      rr.length = entries.length ∧
      ∀ j e d, entries.get? j = some e → rr.get? j = some d →
        d.original_position = e.index.getD 0 + 1 ∧
        d.new_position = k + j + 1 ∧
        e.index.getD 0 < documents.length ∧
        d.text = strTake (documents.getD (e.index.getD 0) "") 300 ++ "..." ∧
        d.relevance_score = e.relevanceScore.getD 0 := by
  induction entries with
  | nil =>
    intro k rr h
    simp only [processRerankGo, Option.some.injEq] at h
    subst h
    simp
  | cons entry rest ih =>
    intro k rr h
    simp only [processRerankGo] at h
    split at h
    · exact absurd h (by simp)
    · rename_i doc hdoc
      split at h
      · exact absurd h (by simp)
      · rename_i tail htail
        rw [Option.some.injEq] at h
        subst h
        obtain ⟨hlen, hspec⟩ := ih (k + 1) tail htail
        refine ⟨by simp [hlen], ?_⟩
        intro j e d hje hjd
        cases j with
        | zero =>
          simp only [List.get?_cons_zero, Option.some.injEq] at hje hjd
          subst hje
          subst hjd
          have hidx : entry.index.getD 0 < documents.length :=
            (List.get?_eq_some.mp hdoc).1
          have hgd : documents.getD (entry.index.getD 0) "" = doc := by
            rw [List.getD_eq_getElem?_getD, ← List.get?_eq_getElem?, hdoc]
            rfl
          exact ⟨rfl, rfl, hidx, by rw [hgd], rfl⟩
        | succ j =>
          simp only [List.get?_cons_succ] at hje hjd
          obtain ⟨h1, h2, h3, h4, h5⟩ := hspec j e d hje hjd
          exact ⟨h1, by omega, h3, h4, h5⟩

/-- The `new_position` fields produced by the rerank loop, starting with
accumulated length `k`, are exactly `k+1, k+2, ...`. -/
theorem processRerankGo_map_new_position (documents : List String)
    (entries : List RerankEntry) :
    ∀ (k : Nat) (rr : List RerankedDocument),
      processRerankGo documents entries k = some rr →
      rr.map (fun d => d.new_position) = List.range' (k + 1) rr.length := by
  induction entries with
  | nil =>
    intro k rr h
    simp only [processRerankGo, Option.some.injEq] at h
    subst h
    simp
  | cons entry rest ih =>
    intro k rr h
    simp only [processRerankGo] at h
    split at h
    · exact absurd h (by simp)
    · split at h
      · exact absurd h (by simp)
      · rename_i tail htail
        rw [Option.some.injEq] at h
        subst h
        simp only [List.map_cons, List.length_cons, List.range'_succ]
        rw [ih (k + 1) tail htail]

/-- If every index in the response is a valid 0-based index into the
submitted document list, the rerank loop succeeds. -/
theorem processRerankGo_isSome_of_valid (documents : List String)
    (entries : List RerankEntry) :
    ∀ (k : Nat), (∀ e ∈ entries, e.index.getD 0 < documents.length) →
      (processRerankGo documents entries k).isSome := by
  induction entries with
  | nil => intro k _; simp [processRerankGo]
  | cons entry rest ih =>
    intro k hvalid
    have hhead : entry.index.getD 0 < documents.length :=
      hvalid entry (List.mem_cons_self entry rest)
    have hdoc : documents.get? (entry.index.getD 0) ≠ none := by
      simp only [ne_eq, List.get?_eq_none]
      omega
    simp only [processRerankGo]
    cases hd : documents.get? (entry.index.getD 0) with
    | none => exact absurd hd hdoc
    | some doc =>
      have htail := ih (k + 1) (fun e he => hvalid e (List.mem_cons_of_mem entry he))
      cases ht : processRerankGo documents rest (k + 1) with
      | none => rw [ht] at htail; exact absurd htail (by simp)
      | some tail => simp

/-- If some entry of the response carries an out-of-range index, the rerank
loop fails (the Python code raises `IndexError`). -/
theorem processRerankGo_none_of_invalid (documents : List String)
    (entries : List RerankEntry) :
    ∀ (k : Nat), (∃ e ∈ entries, documents.length ≤ e.index.getD 0) →
      processRerankGo documents entries k = none := by
  induction entries with
  | nil => intro k h; simp at h
  | cons entry rest ih =>
    intro k h
    simp only [processRerankGo]
    obtain ⟨e, he, hbad⟩ := h
    rcases List.mem_cons.mp he with rfl | he'
    · have : documents.get? (e.index.getD 0) = none := List.get?_eq_none.mpr hbad
      rw [this]
    · cases hd : documents.get? (entry.index.getD 0) with
      | none => rfl
      | some doc => rw [ih (k + 1) ⟨e, he', hbad⟩]

/-- The `j`-th element of the `original_results` loop output, with the
enumeration counter started at `i`. -/
theorem originalResultsGo_get? (hits : List RetrievalHit) :
    ∀ (i j : Nat),
      (originalResultsGo hits i).get? j = (hits.get? j).map
        (fun hit => { position := i + j + 1, score := hit.scoreValue.getD 0,
                      text := truncateWithEllipsis (extractText hit) }) := by
  induction hits with
  | nil => intro i j; simp [originalResultsGo]
  | cons hit rest ih =>
    intro i j
    cases j with
    | zero => rfl
    | succ j =>
      simp only [originalResultsGo, List.get?_cons_succ]
      rw [ih (i + 1) j]
      simp only [show i + 1 + j + 1 = i + (j + 1) + 1 from by omega]

/-- The `original_results` loop preserves length. -/
theorem originalResultsGo_length (hits : List RetrievalHit) :
    ∀ (i : Nat), (originalResultsGo hits i).length = hits.length := by
  induction hits with
  | nil => intro i; rfl
  | cons hit rest ih => intro i; simp [originalResultsGo, ih]

/-- Any successful run of `search_kb_with_optional_rerank` returns exactly
the `original_results` built from the hits. -/
theorem search_some_original (useReranking : Bool) (modelArn : Option String)
    (hits : List RetrievalHit) (rerankResponse : List RerankEntry)
    (r : SearchResult)
    (h : search_kb_with_optional_rerank useReranking modelArn hits rerankResponse = some r) :
    r.original_results = originalResults hits := by
  simp only [search_kb_with_optional_rerank] at h
  split at h
  · split at h
    · exact absurd h (by simp)
    · rw [Option.some.injEq] at h
      subst h
      rfl
  · rw [Option.some.injEq] at h
    subst h
    rfl

/-- When a successful run carries a `reranked_results` key, that list is the
processed rerank response against the extracted documents. -/
theorem search_some_reranked (useReranking : Bool) (modelArn : Option String)
    (hits : List RetrievalHit) (rerankResponse : List RerankEntry)
    (r : SearchResult) (rr : List RerankedDocument)
    (h : search_kb_with_optional_rerank useReranking modelArn hits rerankResponse = some r)
    (hrr : r.reranked_results = some rr) :
    processRerankResults rerankResponse (hits.map extractText) = some rr := by
  simp only [search_kb_with_optional_rerank] at h
  split at h
  · split at h
    · exact absurd h (by simp)
    · rename_i rr' hproc
      rw [Option.some.injEq] at h
      subst h
      simp only at hrr
      rw [Option.some.injEq] at hrr
      subst hrr
      exact hproc
  · rw [Option.some.injEq] at h
    subst h
    exact absurd hrr (by simp)

/-- Prepending an already-joined pair re-associates. -/
theorem joinWithSpace_glue (a b : String) (t : List String) :
    joinWithSpace ((a ++ " " ++ b) :: t) = a ++ " " ++ joinWithSpace (b :: t) := by
  cases t with
  | nil => rfl
  | cons c u => simp [joinWithSpace, String.append_assoc]

/-- The accumulator form of `String.intercalate` agrees with `joinWithSpace`. -/
theorem intercalate_go_eq_joinWithSpace (l : List String) :
    ∀ (a : String), String.intercalate.go a " " l = joinWithSpace (a :: l) := by
  induction l with
  | nil => intro a; rfl
  | cons b t ih =>
    intro a
    rw [show String.intercalate.go a " " (b :: t)
          = String.intercalate.go (a ++ " " ++ b) " " t from rfl]
    rw [ih (a ++ " " ++ b)]
    exact joinWithSpace_glue a b t

/-- Python's `" ".join` is `String.intercalate " "`. -/
theorem joinWithSpace_eq_intercalate (l : List String) :
    joinWithSpace l = String.intercalate " " l := by
  cases l with
  | nil => rfl
  | cons a t =>
    rw [show String.intercalate " " (a :: t) = String.intercalate.go a " " t from rfl,
        intercalate_go_eq_joinWithSpace t a]

/-! ### Claim theorems -/

/-- Claim C1: for every pipeline run, when `use_reranking` is `False` the
document set selected by `retrieve_and_generate` to build the generation
context equals `original_results` and the `source_type` label in the prompt
is the literal string `"vector search"`; when `use_reranking` is `True` and
the result contains a `reranked_results` key, the selected set is
`reranked_results` and the label is `"reranked"`. -/
theorem orchestrator_selection (query : String) (useReranking : Bool)
    (modelArn : Option String) (hits : List RetrievalHit)
    (rerankResponse : List RerankEntry) (r : SearchResult) (g : GenOutput)
    (hs : search_kb_with_optional_rerank useReranking modelArn hits rerankResponse = some r)
    (hg : retrieve_and_generate query useReranking modelArn hits rerankResponse = some g) :
    (useReranking = false →
      g.docs = r.original_results.map (fun d => d.text) ∧
      g.source_type = "vector search") ∧
    (∀ rr, useReranking = true → r.reranked_results = some rr →
      g.docs = rr.map (fun d => d.text) ∧ g.source_type = "reranked") := by
  simp only [retrieve_and_generate, hs] at hg
  cases useReranking with
  | false =>
    simp only [Bool.false_and, Bool.false_eq_true, if_false] at hg
    rw [Option.some.injEq] at hg
    subst hg
    exact ⟨fun _ => ⟨rfl, rfl⟩, fun rr h => absurd h (by simp)⟩
  | true =>
    cases hrr : r.reranked_results with
    | none =>
      simp only [hrr, Option.isSome_none, Bool.true_and, Bool.false_eq_true,
                 if_false] at hg
      rw [Option.some.injEq] at hg
      subst hg
      exact ⟨fun h => absurd h (by simp), fun rr _ hc => absurd hc (by simp)⟩
    | some rr0 =>
      simp only [hrr, Option.isSome_some, Bool.true_and, if_true,
                 Option.getD_some] at hg
      rw [Option.some.injEq] at hg
      subst hg
      refine ⟨fun h => absurd h (by simp), fun rr _ hc => ?_⟩
      rw [Option.some.injEq] at hc
      subst hc
      exact ⟨rfl, rfl⟩

/-- Claim C2: each rerank-service entry maps to a `RerankedDocument` with
`original_position` equal to the entry's 0-based `index` field plus 1 and
`new_position` equal to the entry's 1-based enumeration order in the
response, so the `new_position` values form a contiguous `1..N` sequence,
`N` being the number of returned entries. -/
theorem rerank_positions_contiguous (entries : List RerankEntry)
    (documents : List String) (rr : List RerankedDocument)
    (h : processRerankResults entries documents = some rr) :
    rr.length = entries.length ∧
    (∀ j e d, entries.get? j = some e → rr.get? j = some d →
      d.original_position = e.index.getD 0 + 1 ∧ d.new_position = j + 1) ∧
    rr.map (fun d => d.new_position) = List.range' 1 rr.length := by
  obtain ⟨hlen, hspec⟩ := processRerankGo_spec documents entries 0 rr h
  refine ⟨hlen, ?_, processRerankGo_map_new_position documents entries 0 rr h⟩
  intro j e d hje hjd
  obtain ⟨h1, h2, -, -, -⟩ := hspec j e d hje hjd
  exact ⟨h1, by omega⟩

/-- Claim C3: in the retrieval path, an extracted text longer than 300
characters is stored as exactly its first 300 characters followed by
`"..."`, and a text of length at most 300 is stored unchanged. -/
theorem retrieval_truncation_conditional (useReranking : Bool)
    (modelArn : Option String) (hits : List RetrievalHit)
    (rerankResponse : List RerankEntry) (r : SearchResult)
    (h : search_kb_with_optional_rerank useReranking modelArn hits rerankResponse = some r) :
    ∀ j hit d, hits.get? j = some hit → r.original_results.get? j = some d →
      (300 < (extractText hit).length →
        d.text = strTake (extractText hit) 300 ++ "...") ∧
      ((extractText hit).length ≤ 300 → d.text = extractText hit) := by
  intro j hit d hj hd
  rw [search_some_original _ _ _ _ _ h, originalResults,
      originalResultsGo_get? hits 0 j, hj] at hd
  simp only [Option.map_some', Option.some.injEq] at hd
  subst hd
  simp only [truncateWithEllipsis]
  constructor
  · intro hlong
    rw [if_pos hlong]
  · intro hshort
    rw [if_neg (by omega)]

/-- Claim C4: in the rerank path, every stored `RerankedDocument.text` is the
first 300 characters of the corresponding submitted document with `"..."`
appended unconditionally, also when that document has at most 300
characters. -/
theorem rerank_truncation_unconditional (entries : List RerankEntry)
    (documents : List String) (rr : List RerankedDocument)
    (h : processRerankResults entries documents = some rr) :
    ∀ j e d, entries.get? j = some e → rr.get? j = some d →
      e.index.getD 0 < documents.length ∧
      d.text = strTake (documents.getD (e.index.getD 0) "") 300 ++ "..." := by
  intro j e d hje hjd
  obtain ⟨-, hspec⟩ := processRerankGo_spec documents entries 0 rr h
  obtain ⟨-, -, h3, h4, -⟩ := hspec j e d hje hjd
  exact ⟨h3, h4⟩

/-- Claim C5: with `use_reranking=True` and an empty extracted-document list,
reranking is skipped and the result carries `original_results` but no
`reranked_results` key. -/
theorem empty_documents_skip_rerank (modelArn : Option String)
    (hits : List RetrievalHit) (rerankResponse : List RerankEntry)
    (h : (hits.map extractText).isEmpty = true) :
    search_kb_with_optional_rerank true modelArn hits rerankResponse
      = some { original_results := originalResults hits, reranked_results := none } := by
  simp [search_kb_with_optional_rerank, h]

/-- Claim C6: `original_results` length is at most the requested result
count (5), a present `reranked_results` is at most as long as
`original_results` (assuming the rerank service returns at most as many
entries as documents were submitted, as its `numberOfResults: 5` request on
at most 5 documents provides), and every `original_position` is a valid
1-based index into the submitted document list. -/
theorem pipeline_length_invariants (useReranking : Bool) (modelArn : Option String)
    (hits : List RetrievalHit) (rerankResponse : List RerankEntry) (r : SearchResult)
    (hhits : hits.length ≤ 5)
    (hresp : rerankResponse.length ≤ hits.length)
    (h : search_kb_with_optional_rerank useReranking modelArn hits rerankResponse = some r) :
    r.original_results.length ≤ 5 ∧
    ∀ rr, r.reranked_results = some rr →
      rr.length ≤ r.original_results.length ∧
      ∀ d ∈ rr, 1 ≤ d.original_position ∧ d.original_position ≤ hits.length := by
  have hlen : r.original_results.length = hits.length := by
    rw [search_some_original _ _ _ _ _ h, originalResults, originalResultsGo_length]
  refine ⟨by omega, ?_⟩
  intro rr hrr
  have hproc := search_some_reranked _ _ _ _ _ _ h hrr
  obtain ⟨hrlen, hspec⟩ :=
    processRerankGo_spec (hits.map extractText) rerankResponse 0 rr hproc
  refine ⟨by omega, ?_⟩
  intro d hd
  obtain ⟨j, hj⟩ := List.mem_iff_get?.mp hd
  have hjlt : j < rr.length := (List.get?_eq_some.mp hj).1
  have hjent : j < rerankResponse.length := by omega
  have hje : rerankResponse.get? j = some (rerankResponse.get ⟨j, hjent⟩) :=
    List.get?_eq_get hjent
  obtain ⟨h1, -, h3, -, -⟩ := hspec j _ d hje hj
  rw [List.length_map] at h3
  rw [h1]
  omega

/-- Claim C7: the generation context is built from the first 3 selected
documents, the `i`-th (1-based) formatted as `"Document i: "` followed by
the document's first 300 characters and `"..."`, joined by blank lines, and
the final prompt is exactly
`"Query: <query>\n\nContext from <source_type>:\n<context>\n\nAnswer:"`. -/
theorem context_prompt_format (query : String) (useReranking : Bool)
    (modelArn : Option String) (hits : List RetrievalHit)
    (rerankResponse : List RerankEntry) (g : GenOutput)
    (hg : retrieve_and_generate query useReranking modelArn hits rerankResponse = some g) :
    g.context = String.intercalate "\n\n" ((g.docs.take 3).enum.map
      (fun p => "Document " ++ toString (p.1 + 1) ++ ": " ++ strTake p.2 300 ++ "...")) ∧
    g.prompt = "Query: " ++ query ++ "\n\nContext from " ++ g.source_type ++ ":\n"
               ++ g.context ++ "\n\nAnswer:" := by
  simp only [retrieve_and_generate] at hg
  cases hsearch : search_kb_with_optional_rerank useReranking modelArn hits rerankResponse with
  | none => rw [hsearch] at hg; exact absurd hg (by simp)
  | some results =>
    rw [hsearch] at hg
    simp only [Option.some.injEq] at hg
    subst hg
    exact ⟨rfl, rfl⟩

/-- Claim C8: when a hit's content text is a sequence of fragments, the
extracted document text is the fragments joined with single spaces, a
mapping fragment contributing its span value and any other fragment its
string form. -/
theorem extracted_text_is_space_join (items : List Fragment) (score : Option Int) :
    extractText { content := some items, scoreValue := score }
      = String.intercalate " " (items.map fragmentText) ∧
    (∀ s, fragmentText (Fragment.mapping (some s)) = s) ∧
    (∀ v, fragmentText (Fragment.plain v) = v) := by
  refine ⟨?_, fun s => rfl, fun v => rfl⟩
  simp only [extractText]
  exact joinWithSpace_eq_intercalate (items.map fragmentText)

/-- Claim C9: when `model_arn` is `None` (its default) or otherwise falsy,
no rerank branch is taken and the result carries no `reranked_results` key,
even with `use_reranking=True` and a non-empty document list. -/
theorem falsy_model_arn_skips_rerank (modelArn : Option String)
    (hits : List RetrievalHit) (rerankResponse : List RerankEntry)
    (h : optStrTruthy modelArn = false) :
    search_kb_with_optional_rerank true modelArn hits rerankResponse
      = some { original_results := originalResults hits, reranked_results := none } := by
  simp [search_kb_with_optional_rerank, h]

/-- Claim C10: the `documents[idx]` lookup made while mapping rerank entries
is well-defined whenever every `index` field (0 substituted when absent) is
a valid 0-based index into the submitted document list; and any entry with
an out-of-range index makes the mapping fail. -/
theorem rerank_index_lookup_safety (entries : List RerankEntry)
    (documents : List String) :
    ((∀ e ∈ entries, e.index.getD 0 < documents.length) →
      (processRerankResults entries documents).isSome = true) ∧
    ((∃ e ∈ entries, documents.length ≤ e.index.getD 0) →
      processRerankResults entries documents = none) :=
  ⟨fun h => processRerankGo_isSome_of_valid documents entries 0 h,
   fun h => processRerankGo_none_of_invalid documents entries 0 h⟩

/-! ### Concrete witnesses -/

/-- Concrete run discharging the hypotheses of `orchestrator_selection`:
one hit, reranking on, the reranked set selected and labelled "reranked". -/
theorem orchestrator_selection_witness :
    search_kb_with_optional_rerank true (some "m")
        [{ content := some [Fragment.plain "hello"], scoreValue := some 2 }]
        [{ index := some 0, relevanceScore := some 5 }]
      = some { original_results := [{ position := 1, score := 2, text := "hello" }],
               reranked_results := some [{ original_position := 1, new_position := 1,
                                           relevance_score := 5, text := "hello..." }] } ∧
    retrieve_and_generate "q" true (some "m")
        [{ content := some [Fragment.plain "hello"], scoreValue := some 2 }]
        [{ index := some 0, relevanceScore := some 5 }]
      = some { docs := ["hello..."], source_type := "reranked",
               context := "Document 1: hello......",
               prompt := "Query: q\n\nContext from reranked:\nDocument 1: hello......\n\nAnswer:" } ∧
    (["hello..."] : List String)
      = List.map (fun d => d.text)
          [({ original_position := 1, new_position := 1, relevance_score := 5,
              text := "hello..." } : RerankedDocument)] ∧
    "reranked" = "reranked" := by
  refine ⟨rfl, rfl, ?_⟩
  exact (orchestrator_selection "q" true (some "m")
      [{ content := some [Fragment.plain "hello"], scoreValue := some 2 }]
      [{ index := some 0, relevanceScore := some 5 }]
      { original_results := [{ position := 1, score := 2, text := "hello" }],
        reranked_results := some [{ original_position := 1, new_position := 1,
                                    relevance_score := 5, text := "hello..." }] }
      { docs := ["hello..."], source_type := "reranked",
        context := "Document 1: hello......",
        prompt := "Query: q\n\nContext from reranked:\nDocument 1: hello......\n\nAnswer:" }
      rfl rfl).2
      [{ original_position := 1, new_position := 1, relevance_score := 5, text := "hello..." }]
      rfl rfl

/-- Concrete run discharging the hypothesis of `rerank_positions_contiguous`:
two entries returned in reversed order give `new_position` values 1, 2. -/
theorem rerank_positions_contiguous_witness :
    processRerankResults
        [{ index := some 1, relevanceScore := some 7 },
         { index := some 0, relevanceScore := none }] ["aa", "bb"]
      = some [{ original_position := 2, new_position := 1, relevance_score := 7, text := "bb..." },
              { original_position := 1, new_position := 2, relevance_score := 0, text := "aa..." }] ∧
    List.map (fun d => d.new_position)
        [({ original_position := 2, new_position := 1, relevance_score := 7,
            text := "bb..." } : RerankedDocument),
         { original_position := 1, new_position := 2, relevance_score := 0, text := "aa..." }]
      = List.range' 1 2 := by
  refine ⟨rfl, ?_⟩
  exact (rerank_positions_contiguous
      [{ index := some 1, relevanceScore := some 7 },
       { index := some 0, relevanceScore := none }] ["aa", "bb"]
      [{ original_position := 2, new_position := 1, relevance_score := 7, text := "bb..." },
       { original_position := 1, new_position := 2, relevance_score := 0, text := "aa..." }]
      rfl).2.2

/-- Concrete run discharging the hypothesis of
`retrieval_truncation_conditional`: a 5-character text is stored unchanged. -/
theorem retrieval_truncation_conditional_witness :
    search_kb_with_optional_rerank false none
        [{ content := some [Fragment.plain "hello"], scoreValue := some 2 }] []
      = some { original_results := [{ position := 1, score := 2, text := "hello" }],
               reranked_results := none } ∧
    ({ position := 1, score := 2, text := "hello" } : RetrievedDocument).text
      = extractText { content := some [Fragment.plain "hello"], scoreValue := some 2 } := by
  refine ⟨rfl, ?_⟩
  exact ((retrieval_truncation_conditional false none
      [{ content := some [Fragment.plain "hello"], scoreValue := some 2 }] []
      { original_results := [{ position := 1, score := 2, text := "hello" }],
        reranked_results := none } rfl)
      0 { content := some [Fragment.plain "hello"], scoreValue := some 2 }
      { position := 1, score := 2, text := "hello" } rfl rfl).2 (by decide)

/-- Concrete run discharging the hypothesis of
`rerank_truncation_unconditional`: a 2-character document still gets the
ellipsis appended in the rerank path. -/
theorem rerank_truncation_unconditional_witness :
    processRerankResults [{ index := some 0, relevanceScore := some 1 }] ["hi"]
      = some [{ original_position := 1, new_position := 1, relevance_score := 1,
                text := "hi..." }] ∧
    ({ original_position := 1, new_position := 1, relevance_score := 1,
       text := "hi..." } : RerankedDocument).text
      = strTake ((["hi"] : List String).getD 0 "") 300 ++ "..." := by
  refine ⟨rfl, ?_⟩
  exact ((rerank_truncation_unconditional
      [{ index := some 0, relevanceScore := some 1 }] ["hi"]
      [{ original_position := 1, new_position := 1, relevance_score := 1, text := "hi..." }]
      rfl)
      0 { index := some 0, relevanceScore := some 1 }
      { original_position := 1, new_position := 1, relevance_score := 1, text := "hi..." }
      rfl rfl).2

/-- Concrete run discharging the hypothesis of
`empty_documents_skip_rerank`: no hits, reranking requested, no
`reranked_results` key. -/
theorem empty_documents_skip_rerank_witness :
    (List.map extractText ([] : List RetrievalHit)).isEmpty = true ∧
    search_kb_with_optional_rerank true (some "arn") []
        [{ index := some 0, relevanceScore := none }]
      = some { original_results := originalResults [], reranked_results := none } :=
  ⟨rfl, empty_documents_skip_rerank (some "arn") []
     [{ index := some 0, relevanceScore := none }] rfl⟩

/-- Concrete run discharging the hypotheses of
`pipeline_length_invariants`: 2 hits, a 1-entry rerank response. -/
theorem pipeline_length_invariants_witness :
    ([{ content := some [Fragment.plain "foo"], scoreValue := some 3 },
       { content := none, scoreValue := none }] : List RetrievalHit).length ≤ 5 ∧
    ([{ index := some 1, relevanceScore := some 9 }] : List RerankEntry).length
      ≤ ([{ content := some [Fragment.plain "foo"], scoreValue := some 3 },
            { content := none, scoreValue := none }] : List RetrievalHit).length ∧
    search_kb_with_optional_rerank true (some "m")
        [{ content := some [Fragment.plain "foo"], scoreValue := some 3 },
         { content := none, scoreValue := none }]
        [{ index := some 1, relevanceScore := some 9 }]
      = some { original_results := [{ position := 1, score := 3, text := "foo" },
                                    { position := 2, score := 0, text := "" }],
               reranked_results := some [{ original_position := 2, new_position := 1,
                                           relevance_score := 9, text := "..." }] } ∧
    ([{ position := 1, score := 3, text := "foo" },
      { position := 2, score := 0, text := "" }] : List RetrievedDocument).length ≤ 5 := by
  refine ⟨by decide, by decide, rfl, ?_⟩
  exact (pipeline_length_invariants true (some "m")
      [{ content := some [Fragment.plain "foo"], scoreValue := some 3 },
       { content := none, scoreValue := none }]
      [{ index := some 1, relevanceScore := some 9 }]
      { original_results := [{ position := 1, score := 3, text := "foo" },
                             { position := 2, score := 0, text := "" }],
        reranked_results := some [{ original_position := 2, new_position := 1,
                                    relevance_score := 9, text := "..." }] }
      (by decide) (by decide) rfl).1

/-- Concrete run discharging the hypothesis of `context_prompt_format`:
no documents, the prompt still has the fixed shape. -/
theorem context_prompt_format_witness :
    retrieve_and_generate "q" false none [] []
      = some { docs := [], source_type := "vector search", context := "",
               prompt := "Query: q\n\nContext from vector search:\n\n\nAnswer:" } ∧
    "Query: q\n\nContext from vector search:\n\n\nAnswer:"
      = "Query: " ++ "q" ++ "\n\nContext from " ++ "vector search" ++ ":\n"
        ++ "" ++ "\n\nAnswer:" := by
  refine ⟨rfl, ?_⟩
  exact (context_prompt_format "q" false none [] []
      { docs := [], source_type := "vector search", context := "",
        prompt := "Query: q\n\nContext from vector search:\n\n\nAnswer:" } rfl).2

/-- Concrete run discharging the hypothesis of
`falsy_model_arn_skips_rerank`: `model_arn = None`, reranking requested,
non-empty documents, yet no `reranked_results` key. -/
theorem falsy_model_arn_skips_rerank_witness :
    optStrTruthy none = false ∧
    search_kb_with_optional_rerank true none
        [{ content := some [Fragment.plain "hello"], scoreValue := some 2 }]
        [{ index := some 0, relevanceScore := some 5 }]
      = some { original_results := originalResults
                 [{ content := some [Fragment.plain "hello"], scoreValue := some 2 }],
               reranked_results := none } :=
  ⟨rfl, falsy_model_arn_skips_rerank none
     [{ content := some [Fragment.plain "hello"], scoreValue := some 2 }]
     [{ index := some 0, relevanceScore := some 5 }] rfl⟩

/-- Concrete runs discharging the hypotheses of
`rerank_index_lookup_safety`: index 1 into a 2-document list succeeds,
index 2 fails. -/
theorem rerank_index_lookup_safety_witness :
    (processRerankResults [{ index := some 1, relevanceScore := none }] ["a", "b"]).isSome
      = true ∧
    processRerankResults [{ index := some 2, relevanceScore := none }] ["a", "b"] = none :=
  ⟨(rerank_index_lookup_safety [{ index := some 1, relevanceScore := none }] ["a", "b"]).1
     (by decide),
   (rerank_index_lookup_safety [{ index := some 2, relevanceScore := none }] ["a", "b"]).2
     ⟨{ index := some 2, relevanceScore := none }, by decide, by decide⟩⟩
